import Mathlib

/-!
Verification of the concurrent multi-source detection aggregation and
light-actuation engine (a Python smart-lighting system).  Numeric values
that the source manipulates as Python floats are modelled exactly as
rationals (`ℚ`); machine time is an explicit rational parameter threaded
through the state-transition functions.

Shallow embedding of:
  * `detector.py`           — `Detection`, `ObjectDetector.filter_detections`
  * `light_controller.py`   — `LightController.calculate_brightness_from_detections`,
                              `update_from_detections`, `on_no_detection`,
                              `turn_off`, with the simulated backend's
                              `set_brightness`
  * `multi_camera_processor.py` — presence aggregation, `_light_control_loop`
                              tick, `_log_detection`, `start`/`stop`
  * `openlab_light_controller.py` — `_send_mqtt_command`
  * `main.py`               — the start/stop/pause/resume endpoint handlers
-/

/-- `LightState` enum of `light_controller.py`. -/
inductive LightState where
  | OFF
  | ON
  | TRANSITIONING
deriving DecidableEq, Repr

/-- A detected object (`detector.py`, class `Detection`): class name,
confidence and bounding box `(x1, y1, x2, y2)`. -/
structure Detection where
  class_name : String
  confidence : ℚ
  bbox : ℤ × ℤ × ℤ × ℤ
deriving DecidableEq, Repr

/-- `Detection._calculate_area`: `(x2 - x1) * (y2 - y1)`. -/
def Detection.area (d : Detection) : ℤ :=
  let (x1, y1, x2, y2) := d.bbox
  (x2 - x1) * (y2 - y1)

/-- The dynamic-brightness configuration read by `LightController.__init__`
(`dynamic_brightness` section of the config, with the source's defaults
`min_brightness=20`, `max_brightness=100`, `score_threshold=0.05`,
`score_ceiling=0.3`, `class_weights={'person': 1.0, 'default': 0.1}`). -/
structure DynConfig where
  dynamic_enabled : Bool
  min_brightness : ℚ
  max_brightness : ℚ
  score_threshold : ℚ
  score_ceiling : ℚ
  class_weights : List (String × ℚ)
deriving DecidableEq, Repr

/-- The source's default dynamic-brightness configuration. -/
def defaultDynConfig : DynConfig :=
  { dynamic_enabled := true
    min_brightness := 20
    max_brightness := 100
    score_threshold := 1/20
    score_ceiling := 3/10
    class_weights := [("person", 1), ("default", 1/10)] }

/-- `self.class_weights.get(name, self.class_weights.get('default', 0.1))`:
look the class name up in the weights mapping, falling back to the
mapping's `"default"` entry, falling back to `0.1`. -/
def classWeightGet (w : List (String × ℚ)) (c : String) : ℚ :=
  match w.lookup c with
  | some v => v
  | none =>
    match w.lookup "default" with
    | some v => v
    | none => 1/10

/-- Python `int()` applied to a rational: truncation toward zero. -/
def pyInt (q : ℚ) : ℤ :=
  if q < 0 then -⌊-q⌋ else ⌊q⌋

/-- The score-accumulation loop of
`LightController.calculate_brightness_from_detections`:
`score += confidence * (area / total_frame_area) * class_weight`. -/
def detectionScore (cfg : DynConfig) (detections : List Detection)
    (frame_size : ℤ × ℤ) : ℚ :=
  let total_frame_area : ℤ := frame_size.1 * frame_size.2
  detections.foldl
    (fun score d =>
      score + d.confidence * ((d.area : ℚ) / (total_frame_area : ℚ)) *
        classWeightGet cfg.class_weights d.class_name)
    0

/-- `LightController.calculate_brightness_from_detections` (light_controller.py):
returns 0 when dynamic brightness is disabled or no detections; returns 0
when the score is below `score_threshold`; otherwise maps the score
linearly into `[min_brightness, max_brightness]` (normalised score capped
at `1.0`), truncates with Python `int()` and clamps to `[0, 100]`. -/
def calculate_brightness_from_detections (cfg : DynConfig)
    (detections : List Detection) (frame_size : ℤ × ℤ) : ℤ :=
  if !cfg.dynamic_enabled || detections.isEmpty then 0
  else
    let score := detectionScore cfg detections frame_size
    if score < cfg.score_threshold then 0
    else
      let normalized_score : ℚ :=
        min 1 ((score - cfg.score_threshold) /
          (cfg.score_ceiling - cfg.score_threshold))
      let brightness : ℤ :=
        pyInt (cfg.min_brightness +
          normalized_score * (cfg.max_brightness - cfg.min_brightness))
      max 0 (min 100 brightness)

/-- The class-weight function exactly as the spec words it:
`weights[c] if c in weights else weights["default"]` (meaningful when the
mapping has a `"default"` entry). -/
def specClassWeight (w : List (String × ℚ)) (c : String) : ℚ :=
  match w.lookup c with
  | some v => v
  | none => (w.lookup "default").getD 0

/-- `clamp01` as the spec words it. -/
def clamp01 (q : ℚ) : ℚ := max 0 (min 1 q)

/-- The score-to-brightness mapping exactly as the spec words it, with
`round` (claim C1's reading): `round(min_brightness + clamp01(...) *
(max_brightness - min_brightness))`, clamped to `[0,100]`. -/
def specBrightnessRound (cfg : DynConfig) (detections : List Detection)
    (frame_size : ℤ × ℤ) : ℤ :=
  let score := detectionScore cfg detections frame_size
  if score < cfg.score_threshold then 0
  else
    let normalized : ℚ :=
      clamp01 ((score - cfg.score_threshold) /
        (cfg.score_ceiling - cfg.score_threshold))
    max 0 (min 100
      (round (cfg.min_brightness +
        normalized * (cfg.max_brightness - cfg.min_brightness))))

/-- The score-to-brightness mapping as the spec words it but with the
truncation (`int()`) the source actually performs in place of `round`. -/
def specBrightnessTrunc (cfg : DynConfig) (detections : List Detection)
    (frame_size : ℤ × ℤ) : ℤ :=
  let score := detectionScore cfg detections frame_size
  if score < cfg.score_threshold then 0
  else
    let normalized : ℚ :=
      clamp01 ((score - cfg.score_threshold) /
        (cfg.score_ceiling - cfg.score_threshold))
    max 0 (min 100
      (pyInt (cfg.min_brightness +
        normalized * (cfg.max_brightness - cfg.min_brightness))))

/-- `CameraProcessor.get_people_count`: number of latest filtered detections. -/
def get_people_count (filtered : List Detection) : ℕ := filtered.length

/-- The aggregation passage of `MultiCameraProcessor._light_control_loop`:
fold over all camera processors, accumulating `any_camera_has_people` and
`total_people` from each feed's latest filtered detections. -/
def aggregatePresence (feeds : List (List Detection)) : Bool × ℕ :=
  feeds.foldl
    (fun acc filtered =>
      let people_count := get_people_count filtered
      (acc.1 || decide (0 < people_count), acc.2 + people_count))
    (false, 0)

/-- Commands the light-control loop issues to the light controller. -/
inductive LightCmd where
  | set_brightness (b : ℤ)
  | turn_off
deriving DecidableEq, Repr

/-- The per-loop mutable state of `MultiCameraProcessor._light_control_loop`:
`last_light_state` and `last_person_seen_time`. -/
structure LoopState where
  last_light_state : Bool
  last_person_seen_time : Option ℚ
deriving DecidableEq, Repr

/-- Loop-local initial values (`last_light_state = False`,
`last_person_seen_time = None`). -/
def loopInit : LoopState :=
  { last_light_state := false, last_person_seen_time := none }

/-- `lights_off_delay = 30.0` hardcoded in `_light_control_loop`. -/
def lights_off_delay : ℚ := 30

/-- The `should_turn_on` computation of `_light_control_loop`: true when
people are currently detected, or when the (already updated) last-seen
time is set and strictly less than `lights_off_delay` seconds ago. -/
def shouldTurnOn (any_camera_has_people : Bool)
    (last_person_seen_time : Option ℚ) (now : ℚ) : Bool :=
  if any_camera_has_people then true
  else
    match last_person_seen_time with
    | some t => decide (now - t < lights_off_delay)
    | none => false

/-- One iteration of the body of `MultiCameraProcessor._light_control_loop`
(the un-paused branch): aggregate presence over all feeds, update
`last_person_seen_time`, and command the light on a rising or falling edge
of `should_turn_on`.  `cfg_brightness` is `config.get('light_on_brightness',
100)`. -/
def lightControlTick (cfg_brightness : ℤ) (s : LoopState)
    (feeds : List (List Detection)) (now : ℚ) : LoopState × Option LightCmd :=
  let any_camera_has_people := (aggregatePresence feeds).1
  let last_seen :=
    if any_camera_has_people then some now else s.last_person_seen_time
  let should := shouldTurnOn any_camera_has_people last_seen now
  if should && !s.last_light_state then
    ({ last_light_state := true, last_person_seen_time := last_seen },
      some (LightCmd.set_brightness cfg_brightness))
  else if !should && s.last_light_state then
    ({ last_light_state := false, last_person_seen_time := last_seen },
      some LightCmd.turn_off)
  else
    ({ last_light_state := s.last_light_state,
       last_person_seen_time := last_seen }, none)

/-- The mutable fields of `LightController` (light_controller.py) touched by
the detection-driven paths, with the simulated backend's
`current_brightness`. -/
structure LCState where
  current_brightness : ℤ
  target_brightness : ℤ
  state : LightState
  last_update : ℚ
  last_detection_time : ℚ
deriving DecidableEq, Repr

/-- `LightController.__init__` state (`current_brightness = 0`,
`state = OFF`, `last_detection_time = 0`), constructed at time `t0`. -/
def lcInit (t0 : ℚ) : LCState :=
  { current_brightness := 0, target_brightness := 0, state := LightState.OFF
    last_update := t0, last_detection_time := 0 }

/-- `SimulatedLightController.set_brightness`: clamp to `[0, 100]`, store,
and stamp `last_update`. -/
def set_brightness_sim (s : LCState) (brightness : ℤ) (now : ℚ) : LCState :=
  { s with current_brightness := max 0 (min 100 brightness)
           last_update := now }

/-- `LightController.turn_off`: target 0, state OFF, then
`set_brightness(0)`. -/
def lc_turn_off (s : LCState) (now : ℚ) : LCState :=
  set_brightness_sim
    { s with target_brightness := 0, state := LightState.OFF } 0 now

/-- `LightController.on_no_detection`: when ON and more than
`auto_off_delay` seconds (source default 10.0) have passed since
`last_detection_time`, turn off. -/
def on_no_detection (auto_off_delay : ℚ) (s : LCState) (now : ℚ) : LCState :=
  if s.state = LightState.ON then
    if now - s.last_detection_time > auto_off_delay then lc_turn_off s now
    else s
  else s

/-- `LightController.update_from_detections`: with detections present and a
positive calculated brightness, stamp `last_detection_time`, move to ON and
apply the brightness; with a zero calculated brightness do nothing; with no
detections run the auto-off logic. -/
def update_from_detections (cfg : DynConfig) (auto_off_delay : ℚ)
    (s : LCState) (detections : List Detection) (frame_size : ℤ × ℤ)
    (now : ℚ) : LCState :=
  if !detections.isEmpty then
    let calculated := calculate_brightness_from_detections cfg detections frame_size
    if 0 < calculated then
      let s1 := { s with last_detection_time := now
                         target_brightness := calculated
                         state := LightState.ON }
      let s2 := set_brightness_sim s1 calculated now
      { s2 with last_update := now }
    else s
  else on_no_detection auto_off_delay s now

/-- A video source as the engine sees it (`camera.py`): whether it is
currently opened, and whether a `connect()` attempt would succeed (on
success `connect` sets `is_opened` and returns True, else returns False). -/
structure Camera where
  is_opened : Bool
  connect_ok : Bool
deriving DecidableEq, Repr

/-- The `MultiCameraProcessor` fields the lifecycle operations touch, plus
counters of the observable side effects (spawned threads, light commands
issued to the light controller). -/
structure McpState where
  cameras : List Camera
  is_running : Bool
  is_paused : Bool
  worker_threads : ℕ
  light_thread : Bool
  light_cmds : ℕ
deriving DecidableEq, Repr

/-- One iteration of the connect-all-cameras loop of
`MultiCameraProcessor.start`: attempt `connect()` on a not-yet-opened
camera, clearing the `all_connected` flag on failure. -/
def connectStep (acc : List Camera × Bool) (c : Camera) : List Camera × Bool :=
  if !c.is_opened then
    if c.connect_ok then (acc.1 ++ [{ c with is_opened := true }], acc.2)
    else (acc.1 ++ [c], false)
  else (acc.1 ++ [c], acc.2)

/-- The connect-all-cameras loop of `MultiCameraProcessor.start`: attempt
`connect()` on every not-yet-opened camera (continuing past failures) and
report whether all ended up connected. -/
def mcp_connect_all (cams : List Camera) : List Camera × Bool :=
  cams.foldl connectStep ([], true)

/-- `MultiCameraProcessor.start`: no-op when already running; connect all
cameras and, if any failed, return without spawning threads or changing
`is_running`; otherwise spawn one worker thread per camera plus the light
control thread.  The function returns `None` to its caller in every case. -/
def mcp_start (s : McpState) : McpState :=
  if s.is_running then s
  else
    let conn := mcp_connect_all s.cameras
    if !conn.2 then { s with cameras := conn.1 }
    else
      { s with cameras := conn.1, is_running := true
               worker_threads := conn.1.length, light_thread := true }

/-- `MultiCameraProcessor.stop`: no-op when not running; otherwise clear the
running flag, join all threads, disconnect every camera and issue the final
`turn_off` light command. -/
def mcp_stop (s : McpState) : McpState :=
  if !s.is_running then s
  else
    { s with is_running := false, worker_threads := 0, light_thread := false
             cameras := s.cameras.map (fun c => { c with is_opened := false })
             light_cmds := s.light_cmds + 1 }

/-- `MultiCameraProcessor.pause`: unconditionally set the paused flag. -/
def mcp_pause (s : McpState) : McpState := { s with is_paused := true }

/-- `MultiCameraProcessor.resume`: unconditionally clear the paused flag. -/
def mcp_resume (s : McpState) : McpState := { s with is_paused := false }

/-- main.py's `MessageResponse` pydantic model (`success` defaults True). -/
structure MessageResponse where
  message : String
  success : Bool
deriving DecidableEq, Repr

/-- The `/start` endpoint handler `start_processing` (main.py), multi-camera
mode: reports `success=false` when already running, otherwise calls
`processor.start()` and — since `start` never raises on a connection
failure — always answers with a success message. -/
def start_processing (s : McpState) : McpState × MessageResponse :=
  if s.is_running then
    (s, { message := "Video processor already running", success := false })
  else
    (mcp_start s,
      { message := "Video processing started (multi-camera mode)", success := true })

/-- The `/stop` endpoint handler `stop_processing` (main.py). -/
def stop_processing (s : McpState) : McpState × MessageResponse :=
  if !s.is_running then
    (s, { message := "Video processor not running", success := false })
  else
    (mcp_stop s, { message := "Video processing stopped", success := true })

/-- The `/pause` endpoint handler `pause_processing` (main.py): no
already-paused check. -/
def pause_processing (s : McpState) : McpState × MessageResponse :=
  (mcp_pause s, { message := "Video processing paused", success := true })

/-- The `/resume` endpoint handler `resume_processing` (main.py): no
not-paused check. -/
def resume_processing (s : McpState) : McpState × MessageResponse :=
  (mcp_resume s, { message := "Video processing resumed", success := true })

/-- `OpenLabLightController.epilepsy_safe_duration = 250` (ms). -/
def epilepsy_safe_duration : ℤ := 250

/-- `OpenLabLightController.command_cooldown = 0.1` (s). -/
def command_cooldown : ℚ := 1/10

/-- The `OpenLabLightController` fields `_send_mqtt_command` reads and
writes: the configured `fade_duration` (ms, default 1000) and the time of
the last successful publish. -/
structure OpenLabState where
  fade_duration : ℤ
  last_command_time : ℚ
deriving DecidableEq, Repr

/-- The MQTT payload `{"all": rgbw, "duration": ms}` published by
`_send_mqtt_command`, together with the moment it was published. -/
structure MqttMessage where
  all : String
  duration : ℤ
  sent_at : ℚ
deriving DecidableEq, Repr

/-- `OpenLabLightController._send_mqtt_command`: sleep out the remainder of
the cooldown when called too soon after the previous send, default the
duration to `fade_duration`, floor it to `epilepsy_safe_duration`, publish,
and on publish success record the send time. -/
def send_mqtt_command (s : OpenLabState) (rgbw_value : String)
    (dur : Option ℤ) (now : ℚ) (publish_ok : Bool) :
    OpenLabState × MqttMessage :=
  let send_time :=
    if now - s.last_command_time < command_cooldown
    then s.last_command_time + command_cooldown else now
  let duration0 := dur.getD s.fade_duration
  let duration1 := max duration0 epilepsy_safe_duration
  let msg : MqttMessage :=
    { all := rgbw_value, duration := duration1, sent_at := send_time }
  (if publish_ok then { s with last_command_time := send_time } else s, msg)

/-- The `ObjectDetector` configuration fields used by `filter_detections`
(detector.py): allow list (`target_classes`), ignore list and size
bounds. -/
structure DetectorConfig where
  target_classes : List String
  ignore_classes : List String
  min_size : ℤ
  max_size : ℤ
deriving DecidableEq, Repr

/-- `ObjectDetector.filter_detections`: walk the detections in order,
skipping any whose class is ignored, any whose class is absent from a
non-empty allow list, and any whose area is below `min_size` or above
`max_size`. -/
def filter_detections (cfg : DetectorConfig) : List Detection → List Detection
  | [] => []
  | d :: rest =>
    if d.class_name ∈ cfg.ignore_classes then filter_detections cfg rest
    else if !cfg.target_classes.isEmpty && d.class_name ∉ cfg.target_classes then
      filter_detections cfg rest
    else if d.area < cfg.min_size then filter_detections cfg rest
    else if cfg.max_size < d.area then filter_detections cfg rest
    else d :: filter_detections cfg rest

/-- The three survival rules of the spec as one predicate: class not
ignored, class allowed whenever a non-empty allow list is configured, and
area within `[min_size, max_size]`. -/
def detectionPasses (cfg : DetectorConfig) (d : Detection) : Bool :=
  decide (d.class_name ∉ cfg.ignore_classes) &&
  (cfg.target_classes.isEmpty || decide (d.class_name ∈ cfg.target_classes)) &&
  decide (cfg.min_size ≤ d.area) && decide (d.area ≤ cfg.max_size)

/-- `max_history = 1000` (both `_log_detection` implementations). -/
def max_history : ℕ := 1000

/-- `_log_detection` (multi_camera_processor.py and video_processor.py):
append the new entry, then `pop(0)` once if the history now exceeds
`max_history`. -/
def log_detection {α : Type} (history : List α) (entry : α) : List α :=
  let h := history ++ [entry]
  if max_history < h.length then h.drop 1 else h

/-- Concrete detection realising Scenario A's score of exactly `0.2` on a
`10 × 10` frame: a person at confidence `0.5` covering `2/5` of the frame. -/
def scenarioADetection : Detection :=
  { class_name := "person", confidence := 1/2, bbox := (0, 0, 10, 4) }

/-- Concrete detection whose score `0.0675` makes the truncated and rounded
brightness differ (25.6 → 25 vs 26) under the default configuration. -/
def truncCexDetection : Detection :=
  { class_name := "person", confidence := 27/40, bbox := (0, 0, 10, 1) }

/-- Concrete detection whose score `0.0001` stays below the default
`score_threshold` of `0.05`. -/
def lowScoreDetection : Detection :=
  { class_name := "person", confidence := 1/100, bbox := (0, 0, 1, 1) }

lemma foldl_add_eq_add_sum {α : Type} (f : α → ℚ) (l : List α) (a : ℚ) :
    l.foldl (fun s d => s + f d) a = a + (l.map f).sum := by
  induction l generalizing a with
  | nil => simp
  | cons d t ih => simp [ih, add_assoc]

lemma classWeightGet_eq_specClassWeight (w : List (String × ℚ)) (c : String)
    (hd : (w.lookup "default").isSome) :
    classWeightGet w c = specClassWeight w c := by
  obtain ⟨v, hv⟩ := Option.isSome_iff_exists.mp hd
  unfold classWeightGet specClassWeight
  cases hw : w.lookup c <;> simp [hv]

/-- Claim C2: the detection score computed by
`calculate_brightness_from_detections` is the weighted sum
`Σ confidence_i * (area_i / frame_area) * class_weight(class_i)`, where
`class_weight` falls back to the mapping's `"default"` entry for unlisted
classes. -/
theorem detection_score_weighted_sum (cfg : DynConfig) (ds : List Detection)
    (w h : ℤ) (hA : 0 < w * h)
    (hd : (cfg.class_weights.lookup "default").isSome) :
    detectionScore cfg ds (w, h) =
      (ds.map (fun d => d.confidence * ((d.area : ℚ) / ((w * h : ℤ) : ℚ)) *
        specClassWeight cfg.class_weights d.class_name)).sum := by
  simp only [detectionScore]
  rw [foldl_add_eq_add_sum, zero_add]
  refine congrArg List.sum (List.map_congr_left ?_)
  intro d _
  rw [classWeightGet_eq_specClassWeight cfg.class_weights d.class_name hd]

/-- Witness for C2 at the Scenario A detection on a `10 × 10` frame. -/
theorem detection_score_weighted_sum_witness :
    (0 : ℤ) < 10 * 10 ∧
    (defaultDynConfig.class_weights.lookup "default").isSome = true ∧
    detectionScore defaultDynConfig [scenarioADetection] (10, 10) =
      ([scenarioADetection].map (fun d =>
        d.confidence * ((d.area : ℚ) / ((10 * 10 : ℤ) : ℚ)) *
          specClassWeight defaultDynConfig.class_weights d.class_name)).sum :=
  ⟨by decide, rfl,
    detection_score_weighted_sum defaultDynConfig [scenarioADetection] 10 10
      (by decide) rfl⟩

/-- Claim C1 counterexample: the source truncates the brightness with
`int()` while the claim demands `round`; at a detection whose score gives
an un-clamped brightness of `25.6`, the code yields 25 but the claimed
formula yields 26. -/
theorem brightness_trunc_not_round_cex :
    calculate_brightness_from_detections defaultDynConfig
      [truncCexDetection] (10, 10) = 25 ∧
    specBrightnessRound defaultDynConfig [truncCexDetection] (10, 10) = 26 := by
  constructor
  · norm_num [calculate_brightness_from_detections, detectionScore,
      defaultDynConfig, truncCexDetection, Detection.area, classWeightGet,
      pyInt, List.lookup]
  · norm_num [specBrightnessRound, detectionScore, defaultDynConfig, clamp01,
      truncCexDetection, Detection.area, classWeightGet, round_eq, List.lookup]

/-- Claim C1 (amended): with dynamic brightness enabled, a positive score
threshold and a ceiling above the threshold, the computed brightness is 0
below the threshold and otherwise equals
`int(min_brightness + clamp01((score-threshold)/(ceiling-threshold)) *
(max_brightness-min_brightness))` (truncation, not rounding), clamped to
`[0,100]`; in particular the Scenario A inputs yield 68. -/
theorem calculate_brightness_spec_trunc (cfg : DynConfig)
    (ds : List Detection) (fs : ℤ × ℤ)
    (hen : cfg.dynamic_enabled = true)
    (hth : 0 < cfg.score_threshold)
    (hc : cfg.score_threshold < cfg.score_ceiling) :
    calculate_brightness_from_detections cfg ds fs =
      specBrightnessTrunc cfg ds fs ∧
    calculate_brightness_from_detections defaultDynConfig
      [scenarioADetection] (10, 10) = 68 := by
  refine ⟨?_, by
    norm_num [calculate_brightness_from_detections, detectionScore,
      defaultDynConfig, scenarioADetection, Detection.area, classWeightGet,
      pyInt, List.lookup]⟩
  by_cases hds : ds.isEmpty
  · have hnil : ds = [] := by
      cases ds with
      | nil => rfl
      | cons a t => simp at hds
    subst hnil
    have hscore : detectionScore cfg [] fs = 0 := by simp [detectionScore]
    simp [calculate_brightness_from_detections, specBrightnessTrunc, hscore, hth]
  · by_cases hs : detectionScore cfg ds fs < cfg.score_threshold
    · simp [calculate_brightness_from_detections, specBrightnessTrunc, hds, hen, hs]
    · have h0 : (0 : ℚ) ≤ (detectionScore cfg ds fs - cfg.score_threshold) /
          (cfg.score_ceiling - cfg.score_threshold) :=
        div_nonneg (by linarith [not_lt.mp hs]) (by linarith)
      have hcl : clamp01 ((detectionScore cfg ds fs - cfg.score_threshold) /
          (cfg.score_ceiling - cfg.score_threshold)) =
          min 1 ((detectionScore cfg ds fs - cfg.score_threshold) /
          (cfg.score_ceiling - cfg.score_threshold)) := by
        unfold clamp01
        exact max_eq_right (le_min (by norm_num) h0)
      simp [calculate_brightness_from_detections, specBrightnessTrunc,
        hds, hen, hs, hcl]

/-- Witness for C1's amended theorem at the default configuration. -/
theorem calculate_brightness_spec_trunc_witness :
    defaultDynConfig.dynamic_enabled = true ∧
    (0 : ℚ) < defaultDynConfig.score_threshold ∧
    defaultDynConfig.score_threshold < defaultDynConfig.score_ceiling ∧
    (calculate_brightness_from_detections defaultDynConfig
        [truncCexDetection] (10, 10) =
      specBrightnessTrunc defaultDynConfig [truncCexDetection] (10, 10) ∧
     calculate_brightness_from_detections defaultDynConfig
        [scenarioADetection] (10, 10) = 68) :=
  ⟨rfl, by norm_num [defaultDynConfig], by norm_num [defaultDynConfig],
    calculate_brightness_spec_trunc defaultDynConfig [truncCexDetection]
      (10, 10) rfl (by norm_num [defaultDynConfig])
      (by norm_num [defaultDynConfig])⟩

lemma aggregatePresence_go (feeds : List (List Detection)) (b : Bool) (n : ℕ) :
    feeds.foldl
      (fun acc filtered =>
        let people_count := get_people_count filtered
        (acc.1 || decide (0 < people_count), acc.2 + people_count)) (b, n) =
      (b || feeds.any (fun f => decide (0 < get_people_count f)),
       n + (feeds.map get_people_count).sum) := by
  induction feeds generalizing b n with
  | nil => simp
  | cons f t ih => simp [ih, Bool.or_assoc, add_assoc]

/-- Claim C4: on every aggregation tick the presence boolean equals the
logical OR over feeds of `len(filtered_detections) > 0`, and the total
people count equals the sum of the per-feed filtered-detection counts. -/
theorem aggregate_presence_or_sum (feeds : List (List Detection)) :
    (aggregatePresence feeds).1 =
      feeds.any (fun f => decide (0 < get_people_count f)) ∧
    (aggregatePresence feeds).2 = (feeds.map get_people_count).sum := by
  unfold aggregatePresence
  rw [aggregatePresence_go]
  simp

/-- Claim C3 counterexample: starting from the loop-local initial state, a
presence tick at t=0 turns the light on with `last_person_seen_time = 0`;
an absence tick at exactly t=30 then turns the light OFF although the
elapsed interval is not strictly greater than `lights_off_delay`. -/
theorem light_off_at_exact_delay_cex :
    (lightControlTick 100 loopInit [[scenarioADetection]] 0).1 =
      { last_light_state := true, last_person_seen_time := some 0 } ∧
    (lightControlTick 100 (⟨true, some 0⟩ : LoopState)
        [[]] 30).1.last_light_state = false ∧
    (lightControlTick 100 (⟨true, some 0⟩ : LoopState)
        [[]] 30).2 = some LightCmd.turn_off ∧
    ¬ ((30 : ℚ) - 0 > lights_off_delay) := by
  refine ⟨?_, ?_, ?_, by norm_num [lights_off_delay]⟩ <;>
    norm_num [lightControlTick, shouldTurnOn, aggregatePresence,
      get_people_count, loopInit, lights_off_delay]

/-- Claim C3 (amended): in the light-control loop, a tick turns the light
from ON to OFF only when no feed reports presence and at least
`lights_off_delay` (30 s, inclusive) has elapsed since
`last_person_seen_time`; any presence tick resets the timer to `now` and
leaves the light ON; and whenever the light is ON after a tick the timer is
set. -/
theorem light_off_only_after_delay (cb : ℤ) (s : LoopState)
    (feeds : List (List Detection)) (now : ℚ) :
    (s.last_light_state = true →
      (lightControlTick cb s feeds now).1.last_light_state = false →
      (aggregatePresence feeds).1 = false ∧
      ∀ t, s.last_person_seen_time = some t → lights_off_delay ≤ now - t) ∧
    ((aggregatePresence feeds).1 = true →
      (lightControlTick cb s feeds now).1.last_light_state = true ∧
      (lightControlTick cb s feeds now).1.last_person_seen_time = some now) ∧
    ((lightControlTick cb s feeds now).1.last_light_state = true →
      ((lightControlTick cb s feeds now).1.last_person_seen_time).isSome) := by
  cases ha : (aggregatePresence feeds).1 with
  | true =>
    cases hl : s.last_light_state <;>
      simp [lightControlTick, shouldTurnOn, ha, hl]
  | false =>
    cases hls : s.last_person_seen_time with
    | none =>
      cases hl : s.last_light_state <;>
        simp [lightControlTick, shouldTurnOn, ha, hls, hl]
    | some t =>
      by_cases hlt : now - t < lights_off_delay
      · cases hl : s.last_light_state <;>
          simp [lightControlTick, shouldTurnOn, ha, hls, hl, hlt]
      · cases hl : s.last_light_state <;>
          simp [lightControlTick, shouldTurnOn, ha, hls, hl, hlt,
            not_lt.mp hlt]

/-- Witness for C3's amended theorem: a light that last saw presence at
t=0 and is ticked with no presence at t=40 satisfies the elapsed-time
bound. -/
theorem light_off_only_after_delay_witness :
    lights_off_delay ≤ (40 : ℚ) - 0 :=
  ((light_off_only_after_delay 100 (⟨true, some 0⟩ : LoopState) [] 40).1
    rfl
    (by norm_num [lightControlTick, shouldTurnOn, aggregatePresence,
      lights_off_delay])).2 0 rfl

/-- Claim C5 counterexample: pausing an already-paused processor leaves the
state unchanged but the /pause endpoint reports `success=true`, not the
claimed `success=false`. -/
theorem pause_already_paused_cex :
    (pause_processing (⟨[], true, true, 1, true, 0⟩ : McpState)).2.success
      = true ∧
    (pause_processing (⟨[], true, true, 1, true, 0⟩ : McpState)).1 =
      (⟨[], true, true, 1, true, 0⟩ : McpState) := by
  exact ⟨rfl, rfl⟩

/-- Claim C5 (amended): repeated `start()` and `stop()` calls are rejected
with `success=false` and no state change; repeated `pause()` and
`resume()` calls also cause no state change, but the endpoints perform no
already-applied check and answer `success=true`. -/
theorem lifecycle_idempotence (s : McpState) :
    (s.is_running = true →
      start_processing s =
        (s, ⟨"Video processor already running", false⟩)) ∧
    (s.is_running = false →
      stop_processing s = (s, ⟨"Video processor not running", false⟩)) ∧
    (s.is_paused = true →
      pause_processing s = (s, ⟨"Video processing paused", true⟩)) ∧
    (s.is_paused = false →
      resume_processing s = (s, ⟨"Video processing resumed", true⟩)) := by
  obtain ⟨cams, run, paus, wt, lth, lc⟩ := s
  cases run <;> cases paus <;>
    refine ⟨fun h => ?_, fun h => ?_, fun h => ?_, fun h => ?_⟩ <;>
      first
        | rfl
        | exact Bool.noConfusion h

/-- Witness for C5's amended theorem: a running, unpaused processor. -/
theorem lifecycle_idempotence_witness :
    start_processing (⟨[], true, false, 1, true, 0⟩ : McpState) =
      ((⟨[], true, false, 1, true, 0⟩ : McpState),
        ⟨"Video processor already running", false⟩) ∧
    resume_processing (⟨[], true, false, 1, true, 0⟩ : McpState) =
      ((⟨[], true, false, 1, true, 0⟩ : McpState),
        ⟨"Video processing resumed", true⟩) :=
  ⟨(lifecycle_idempotence _).1 rfl, (lifecycle_idempotence _).2.2.2 rfl⟩

lemma mcp_connect_all_go (cams : List Camera) (p : List Camera × Bool) :
    (cams.foldl connectStep p).2 =
      (p.2 && cams.all (fun c => c.is_opened || c.connect_ok)) := by
  induction cams generalizing p with
  | nil => simp
  | cons c t ih =>
    rw [List.foldl_cons, ih, List.all_cons]
    by_cases ho : c.is_opened <;> by_cases hc : c.connect_ok <;>
      simp [connectStep, ho, hc, Bool.and_assoc]

lemma mcp_connect_all_flag (cams : List Camera) :
    (mcp_connect_all cams).2 =
      cams.all (fun c => c.is_opened || c.connect_ok) := by
  unfold mcp_connect_all
  rw [mcp_connect_all_go]
  simp

/-- Claim C7 counterexample: three configured cameras, the second of which
fails to connect — start aborts (no threads, not running) yet the /start
endpoint answers `success=true`, so the failure is NOT reported to the
caller. -/
theorem start_failure_not_reported_cex :
    (start_processing (⟨[⟨false, true⟩, ⟨false, false⟩, ⟨false, true⟩],
        false, false, 0, false, 0⟩ : McpState)).2.success = true ∧
    (start_processing (⟨[⟨false, true⟩, ⟨false, false⟩, ⟨false, true⟩],
        false, false, 0, false, 0⟩ : McpState)).1.is_running = false ∧
    (start_processing (⟨[⟨false, true⟩, ⟨false, false⟩, ⟨false, true⟩],
        false, false, 0, false, 0⟩ : McpState)).1.worker_threads = 0 := by
  exact ⟨rfl, rfl, rfl⟩

/-- Claim C7 (amended): if any configured camera fails to connect during a
non-running `start()`, the start aborts — the running flag stays false, no
worker or light-control thread is spawned and no light command is issued —
but the failure is only logged: `start()` returns normally and the /start
endpoint reports `success=true` to the caller. -/
theorem start_aborts_on_connect_failure (s : McpState)
    (hrun : s.is_running = false)
    (hbad : ∃ c ∈ s.cameras, c.is_opened = false ∧ c.connect_ok = false) :
    (mcp_start s).is_running = false ∧
    (mcp_start s).worker_threads = s.worker_threads ∧
    (mcp_start s).light_thread = s.light_thread ∧
    (mcp_start s).light_cmds = s.light_cmds ∧
    (start_processing s).2.success = true := by
  have hflag : (mcp_connect_all s.cameras).2 = false := by
    rw [mcp_connect_all_flag]
    obtain ⟨c, hc, ho, hk⟩ := hbad
    refine List.all_eq_false.mpr ⟨c, hc, ?_⟩
    simp [ho, hk]
  simp [mcp_start, start_processing, hrun, hflag]

/-- Witness for C7's amended theorem: one unopened camera whose connect
fails. -/
theorem start_aborts_on_connect_failure_witness :
    (mcp_start (⟨[⟨false, false⟩], false, false, 0, false, 0⟩ :
      McpState)).is_running = false :=
  (start_aborts_on_connect_failure
    (⟨[⟨false, false⟩], false, false, 0, false, 0⟩ : McpState) rfl
    ⟨⟨false, false⟩, by simp, rfl, rfl⟩).1

/-- Claim C6 counterexample: a tick of `update_from_detections` with a
non-empty detection list whose score stays below the threshold (computed
brightness 0) leaves `last_detection_time` — and the whole controller
state — untouched, so presence alone does not update the timestamp. -/
theorem presence_without_timestamp_update_cex :
    ¬ ([lowScoreDetection] = ([] : List Detection)) ∧
    update_from_detections defaultDynConfig 10 (lcInit 0)
      [lowScoreDetection] (10, 10) 100 = lcInit 0 ∧
    ¬ ((update_from_detections defaultDynConfig 10 (lcInit 0)
        [lowScoreDetection] (10, 10) 100).last_detection_time = 100) := by
  have hb : calculate_brightness_from_detections defaultDynConfig
      [lowScoreDetection] (10, 10) = 0 := by
    norm_num [calculate_brightness_from_detections, detectionScore,
      defaultDynConfig, lowScoreDetection, Detection.area, classWeightGet,
      List.lookup]
  refine ⟨by simp, ?_, ?_⟩
  · simp [update_from_detections, hb]
  · simp [update_from_detections, hb, lcInit]

lemma lightControlTick_last_seen (cb : ℤ) (ls : LoopState)
    (feeds : List (List Detection)) (now : ℚ) :
    (lightControlTick cb ls feeds now).1.last_person_seen_time =
      if (aggregatePresence feeds).1 then some now
      else ls.last_person_seen_time := by
  cases ha : (aggregatePresence feeds).1
  · cases hls : ls.last_person_seen_time with
    | none =>
      cases hl : ls.last_light_state <;>
        simp [lightControlTick, shouldTurnOn, ha, hls, hl]
    | some t =>
      by_cases hlt : now - t < lights_off_delay <;>
        cases hl : ls.last_light_state <;>
        simp [lightControlTick, shouldTurnOn, ha, hls, hl, hlt]
  · cases hl : ls.last_light_state <;>
      simp [lightControlTick, shouldTurnOn, ha, hl]

/-- Claim C6 (amended): in the light-control loop any presence tick sets
`last_person_seen_time = now`, and the timestamp never regresses provided
the clock does not run backwards; in `LightController.update_from_detections`
the timestamp is set to `now` exactly when the detection list is non-empty
AND the computed brightness is positive, and it never regresses under a
forward-running clock. -/
theorem last_presence_timestamp_update (cfg : DynConfig) (aod : ℚ)
    (s : LCState) (ds : List Detection) (fs : ℤ × ℤ) (cb : ℤ)
    (ls : LoopState) (feeds : List (List Detection)) (now : ℚ) :
    ((aggregatePresence feeds).1 = true →
      (lightControlTick cb ls feeds now).1.last_person_seen_time
        = some now) ∧
    (∀ t0 t1, ls.last_person_seen_time = some t0 → t0 ≤ now →
      (lightControlTick cb ls feeds now).1.last_person_seen_time = some t1 →
      t0 ≤ t1) ∧
    (¬ ds.isEmpty = true →
      0 < calculate_brightness_from_detections cfg ds fs →
      (update_from_detections cfg aod s ds fs now).last_detection_time
        = now) ∧
    (s.last_detection_time ≤ now →
      s.last_detection_time ≤
        (update_from_detections cfg aod s ds fs now).last_detection_time) := by
  refine ⟨?_, ?_, ?_, ?_⟩
  · intro ha
    simp [lightControlTick_last_seen, ha]
  · intro t0 t1 hls hle htick
    rw [lightControlTick_last_seen] at htick
    by_cases ha : (aggregatePresence feeds).1 = true
    · rw [if_pos ha] at htick
      have h1 := Option.some.inj htick
      rw [← h1]
      exact hle
    · rw [if_neg ha, hls] at htick
      have h1 := Option.some.inj htick
      rw [← h1]
  · intro hne hpos
    have hne' : ds.isEmpty = false := by
      cases hds : ds.isEmpty
      · rfl
      · exact absurd hds hne
    simp [update_from_detections, hne', hpos, set_brightness_sim]
  · intro hle
    by_cases he : ds.isEmpty
    · simp only [update_from_detections, he, Bool.not_true,
        Bool.false_eq_true, if_false, on_no_detection]
      by_cases hst : s.state = LightState.ON
      · by_cases hd : now - s.last_detection_time > aod <;>
          simp [hst, hd, lc_turn_off, set_brightness_sim]
      · simp [hst]
    · have he' : ds.isEmpty = false := by
        cases hds : ds.isEmpty
        · rfl
        · exact absurd hds he
      by_cases hp : 0 < calculate_brightness_from_detections cfg ds fs <;>
        simp [update_from_detections, he', hp, set_brightness_sim, hle]

/-- Witness for C6's amended theorem: Scenario A's detection at t=5 stamps
the controller's `last_detection_time`. -/
theorem last_presence_timestamp_update_witness :
    (update_from_detections defaultDynConfig 10 (lcInit 0)
      [scenarioADetection] (10, 10) 5).last_detection_time = 5 :=
  (last_presence_timestamp_update defaultDynConfig 10 (lcInit 0)
      [scenarioADetection] (10, 10) 100 loopInit [] 5).2.2.1
    (by simp)
    (by norm_num [calculate_brightness_from_detections, detectionScore,
      defaultDynConfig, scenarioADetection, Detection.area, classWeightGet,
      pyInt, List.lookup])

/-- Claim C8: every dispatched light command carries a duration of at
least the epilepsy-safe minimum (250 ms) regardless of the requested
duration; a command due before the 0.1 s cooldown since the previous send
has elapsed is delayed until exactly the cooldown boundary and then sent
(the published payload always carries the requested RGBW value — nothing
is dropped or coalesced), while a command outside the cooldown is sent
immediately. -/
theorem send_command_safety (s : OpenLabState) (rgbw : String)
    (dur : Option ℤ) (now : ℚ) (ok : Bool) :
    epilepsy_safe_duration ≤
      (send_mqtt_command s rgbw dur now ok).2.duration ∧
    (send_mqtt_command s rgbw dur now ok).2.all = rgbw ∧
    (now - s.last_command_time < command_cooldown →
      (send_mqtt_command s rgbw dur now ok).2.sent_at =
        s.last_command_time + command_cooldown) ∧
    (¬ now - s.last_command_time < command_cooldown →
      (send_mqtt_command s rgbw dur now ok).2.sent_at = now) := by
  refine ⟨?_, rfl, fun h => ?_, fun h => ?_⟩
  · simp only [send_mqtt_command]
    exact le_max_right _ _
  · simp [send_mqtt_command, h]
  · simp [send_mqtt_command, h]

/-- Witness for C8 at a command requested 0.05 s after the previous send:
the duration floor holds and the send is delayed to the cooldown
boundary. -/
theorem send_command_safety_witness :
    epilepsy_safe_duration ≤
      (send_mqtt_command ⟨1000, 0⟩ "000000ff" none (1/20) true).2.duration ∧
    (send_mqtt_command ⟨1000, 0⟩ "000000ff" none (1/20) true).2.sent_at =
      0 + command_cooldown :=
  ⟨(send_command_safety ⟨1000, 0⟩ "000000ff" none (1/20) true).1,
   (send_command_safety ⟨1000, 0⟩ "000000ff" none (1/20) true).2.2.1
     (by norm_num [command_cooldown])⟩

lemma filter_detections_cons (cfg : DetectorConfig) (d : Detection)
    (t : List Detection) :
    filter_detections cfg (d :: t) =
      if detectionPasses cfg d then d :: filter_detections cfg t
      else filter_detections cfg t := by
  rcases lt_or_le d.area cfg.min_size with h4 | h4 <;>
    rcases lt_or_le cfg.max_size d.area with h5 | h5
  · by_cases h1 : d.class_name ∈ cfg.ignore_classes <;>
      by_cases h2 : cfg.target_classes.isEmpty <;>
      by_cases h3 : d.class_name ∈ cfg.target_classes <;>
      simp [filter_detections, detectionPasses, h1, h2, h3, h4, h5,
        h4.not_le, h5.not_le]
  · by_cases h1 : d.class_name ∈ cfg.ignore_classes <;>
      by_cases h2 : cfg.target_classes.isEmpty <;>
      by_cases h3 : d.class_name ∈ cfg.target_classes <;>
      simp [filter_detections, detectionPasses, h1, h2, h3, h4, h5,
        h4.not_le, h5.not_lt]
  · by_cases h1 : d.class_name ∈ cfg.ignore_classes <;>
      by_cases h2 : cfg.target_classes.isEmpty <;>
      by_cases h3 : d.class_name ∈ cfg.target_classes <;>
      simp [filter_detections, detectionPasses, h1, h2, h3, h4, h5,
        h4.not_lt, h5.not_le]
  · by_cases h1 : d.class_name ∈ cfg.ignore_classes <;>
      by_cases h2 : cfg.target_classes.isEmpty <;>
      by_cases h3 : d.class_name ∈ cfg.target_classes <;>
      simp [filter_detections, detectionPasses, h1, h2, h3, h4, h5,
        h4.not_lt, h5.not_lt]

/-- Claim C9: `filter_detections` returns exactly the detections that
survive all three rules — class not ignored, class in a non-empty allow
list when one is configured, and area within `[min_size, max_size]` — and
the result is an order-preserving subsequence of the input. -/
theorem filter_detections_spec (cfg : DetectorConfig)
    (ds : List Detection) :
    filter_detections cfg ds = ds.filter (detectionPasses cfg) ∧
    (filter_detections cfg ds).Sublist ds := by
  have h : filter_detections cfg ds = ds.filter (detectionPasses cfg) := by
    induction ds with
    | nil => rfl
    | cons d t ih => rw [filter_detections_cons, List.filter_cons, ih]
  refine ⟨h, ?_⟩
  rw [h]
  exact List.filter_sublist ds

/-- Claim C10: `_log_detection` keeps the history bounded by
`max_history` (1000): appending within the bound is a plain append, and
appending at the bound evicts the oldest entry first-in-first-out. -/
theorem log_detection_bounded {α : Type} (h : List α) (e : α)
    (hb : h.length ≤ max_history) :
    (log_detection h e).length ≤ max_history ∧
    (h.length = max_history → log_detection h e = h.tail ++ [e]) ∧
    (h.length < max_history → log_detection h e = h ++ [e]) := by
  have hlog : log_detection h e =
      if max_history < (h ++ [e]).length then (h ++ [e]).drop 1
      else h ++ [e] := rfl
  rw [hlog]
  unfold max_history at hb ⊢
  rw [List.length_append, List.length_singleton]
  by_cases hc : 1000 < h.length + 1
  · have hlen : h.length = 1000 := by omega
    rw [if_pos hc]
    refine ⟨?_, fun _ => ?_, fun hlt => absurd hlen (by omega)⟩
    · rw [List.length_drop, List.length_append, List.length_singleton]
      omega
    · rw [List.drop_append_of_le_length (by omega), List.drop_one]
  · rw [if_neg hc]
    refine ⟨?_, fun he => absurd he (by omega), fun _ => rfl⟩
    rw [List.length_append, List.length_singleton]
    omega

/-- Witness for C10 on an empty history. -/
theorem log_detection_bounded_witness :
    (log_detection ([] : List ℕ) 7).length ≤ max_history :=
  (log_detection_bounded ([] : List ℕ) 7 (by decide)).1
